import Mathlib

/-
  Verification of the request-construction pipeline of the primp HTTP client
  (src/lib.rs).  Rust strings are modelled as lists of characters, HashMaps as
  association lists in iteration order, the filesystem consulted by the
  multipart branch as a function from paths to optional byte lists, and the
  transport request builder as an explicit record of everything the code has
  attached to it by the time `send` is reached.
-/

set_option maxRecDepth 8000

namespace Primp

/-- Characters of source strings; a Rust `String` is modelled as a list of characters. -/
abbrev Str := List Char

/-- ASCII lowercasing, as in Rust's `to_ascii_lowercase` / `eq_ignore_ascii_case`. -/
def strLower (s : Str) : Str := s.map Char.toLower

/-- Whitespace predicate backing Rust's `str::trim` on the ASCII header inputs that occur here. -/
def isWS (c : Char) : Bool := c == ' ' || c == '\t' || c == '\n' || c == '\r'

def dropWS : Str → Str
  | [] => []
  | c :: cs => if isWS c then dropWS cs else c :: cs

/-- Rust `str::trim` (restricted to ASCII whitespace). -/
def trimStr (s : Str) : Str := (dropWS ((dropWS s).reverse)).reverse

/-- Rust `str::split(sep)`: splits on every occurrence, keeping empty pieces. -/
def splitChar (sep : Char) : Str → List Str
  | [] => [[]]
  | c :: cs =>
    let r := splitChar sep cs
    if c == sep then [] :: r
    else
      match r with
      | [] => [[c]]
      | h :: t => (c :: h) :: t

/-- Rust `str::splitn(2, sep)`: the piece before the first separator, and the (unsplit)
rest when a separator occurs. -/
def splitFirst (sep : Char) : Str → Str × Option Str
  | [] => ([], none)
  | c :: cs =>
    if c == sep then ([], some cs)
    else
      let r := splitFirst sep cs
      (c :: r.1, r.2)

/-- The error sites of `Client::new` and `Client::request` in src/lib.rs, one constructor
per `PyErr::new` site (the multipart read failure carries the failing path). -/
inductive ReqError
  | invalidHeaderName
  | invalidHeaderValue
  | invalidProxy
  | invalidImpersonate
  | bothHttp
  | unrecognizedMethod
  | bothAuth
  | fileRead (path : Str)
deriving DecidableEq

/-- Taxonomy of the spec (section 7): ValidationError covers the per-call validation
failures — unrecognized method, conflicting auth, malformed header name or value. -/
def ReqError.isValidationError : ReqError → Bool
  | .unrecognizedMethod => true
  | .bothAuth => true
  | .invalidHeaderName => true
  | .invalidHeaderValue => true
  | _ => false

/-- Taxonomy of the spec (section 7): EncodingError is the multipart file-read failure. -/
def ReqError.isEncodingError : ReqError → Bool
  | .fileRead _ => true
  | _ => false

/-- The message attached at each error site.  For the file-read failure the OS error text
that the code appends after the colon is elided. -/
def ReqError.message : ReqError → Str
  | .invalidHeaderName => "Invalid header name".toList
  | .invalidHeaderValue => "Invalid header value".toList
  | .invalidProxy => "Invalid proxy URL".toList
  | .invalidImpersonate => "Invalid impersonate param".toList
  | .bothHttp => "Both http1 and http2 cannot be true".toList
  | .unrecognizedMethod => "Unrecognized HTTP method".toList
  | .bothAuth => "Cannot provide both auth and auth_bearer".toList
  | .fileRead p => "Error reading file ".toList ++ p ++ ": ".toList

/-- The Python exception class raised at each site: the code uses PyValueError for the
validation sites of `new`/`request` and PyException for the method, file and transport sites. -/
def ReqError.pyClass : ReqError → Str
  | .unrecognizedMethod => "Exception".toList
  | .fileRead _ => "Exception".toList
  | _ => "ValueError".toList

/-- Valid bytes of an HTTP header name (token characters), as accepted by the external
`HeaderName::from_bytes`. -/
def isHeaderNameChar (c : Char) : Bool :=
  c.isAlphanum || c == '!' || c == '#' || c == '$' || c == '%' || c == '&' ||
  c == Char.ofNat 39 || c == '*' || c == '+' || c == '-' || c == '.' ||
  c == '^' || c == '_' || c == Char.ofNat 96 || c == '|' || c == '~'

def validHeaderName (s : Str) : Bool := !s.isEmpty && s.all isHeaderNameChar

def validHeaderValueChar (c : Char) : Bool :=
  c == '\t' || (decide (32 ≤ c.toNat) && decide (c.toNat ≠ 127))

/-- Valid characters of a header value as accepted by the external `HeaderValue::from_str`
(tab, or any non-control character; the bytes of multi-byte characters are ≥ 0x80 and
hence acceptable, so a character-level check suffices). -/
def validHeaderValue (s : Str) : Bool := s.all validHeaderValueChar

/-- `HeaderMap::insert` at the spec's transport boundary: replaces any previously set
value for the same (already lowercased) name.  Modelled from the spec: section 4.2 has each
body variant "unconditionally overwriting the previously-set body and content-type header". -/
def headerInsert (hs : List (Str × Str)) (k v : Str) : List (Str × Str) :=
  (k, v) :: hs.filter (fun p => !decide (p.1 = k))

/-- `HeaderMap` lookup: the lookup name is matched case-insensitively (stored names are
already lowercased by `HeaderName` normalization). -/
def headerGet (hs : List (Str × Str)) (name : Str) : Option Str :=
  (hs.find? (fun p => decide (p.1 = strLower name))).map (·.2)

/-- The header-map construction loop of `Client::request` (and `Client::new`): validates
each name and value, lowercases the name (`HeaderName` normalization) and inserts. -/
def mkHeaderMap (m : List (Str × Str)) : Except ReqError (List (Str × Str)) :=
  m.foldlM
    (fun acc kv =>
      if validHeaderName kv.1 then
        if validHeaderValue kv.2 then .ok (headerInsert acc (strLower kv.1) kv.2)
        else .error .invalidHeaderValue
      else .error .invalidHeaderName)
    []

deriving instance DecidableEq for Except

inductive Method
  | GET | POST | HEAD | OPTIONS | PUT | PATCH | DELETE
deriving DecidableEq

/-- The method match of `Client::request` (lines 281-292). -/
def parseMethod (m : Str) : Option Method :=
  if m = "GET".toList then some .GET
  else if m = "POST".toList then some .POST
  else if m = "HEAD".toList then some .HEAD
  else if m = "OPTIONS".toList then some .OPTIONS
  else if m = "PUT".toList then some .PUT
  else if m = "PATCH".toList then some .PATCH
  else if m = "DELETE".toList then some .DELETE
  else none

/-- `is_post_put_patch` (line 278). -/
def isPPP (m : Str) : Bool :=
  decide (m = "POST".toList) || decide (m = "PUT".toList) || decide (m = "PATCH".toList)

/-- A Python value as far as the dict-conversion helpers inspect it: a string, a list, or
any other object (represented by an integer payload). -/
inductive PyObj
  | str (s : Str)
  | pyInt (n : Int)
  | list (elems : List PyObj)

/-- `value.extract::<String>()`: succeeds exactly on strings. -/
def extractStr : PyObj → Except Unit Str
  | .str s => .ok s
  | _ => .error ()

/-- `HashMap::insert`: replaces the value of an existing key. -/
def mapInsert (m : List (Str × List Str)) (k : Str) (v : List Str) : List (Str × List Str) :=
  m.filter (fun p => !decide (p.1 = k)) ++ [(k, v)]

/-- `py_dict_to_hashmap` (lines 32-49): each value becomes a list of strings (a non-list
value is a singleton); a value that is neither a string nor a list of strings fails. -/
def py_dict_to_hashmap (d : List (Str × PyObj)) : Except Unit (List (Str × List Str)) :=
  d.foldlM
    (fun acc kv => do
      let vals ←
        match kv.2 with
        | .list xs => xs.mapM extractStr
        | v => (extractStr v).map (fun s => [s])
      .ok (mapInsert acc kv.1 vals))
    []

/-- The `flat_map` of `Client::request` (lines 267-269): one pair per value, in
value-list order. -/
def flattenPairs (m : List (Str × List Str)) : List (Str × Str) :=
  (m.map (fun kv => kv.2.map (fun v => (kv.1, v)))).flatten

def hexDigitU (n : Nat) : Char := if n < 10 then Char.ofNat (48 + n) else Char.ofNat (55 + n)

/-- UTF-8 bytes of one character. -/
def utf8Bytes (c : Char) : List Nat :=
  let n := c.toNat
  if n < 128 then [n]
  else if n < 2048 then [192 + n / 64, 128 + n % 64]
  else if n < 65536 then [224 + n / 4096, 128 + (n / 64) % 64, 128 + n % 64]
  else [240 + n / 262144, 128 + (n / 4096) % 64, 128 + (n / 64) % 64, 128 + n % 64]

def pctByte (b : Nat) : Str := ['%', hexDigitU (b / 16), hexDigitU (b % 16)]

/-- `form_urlencoded` serialization of one string: ASCII alphanumerics and `*`, `-`, `.`,
`_` verbatim, space as `+`, every other byte percent-encoded. -/
def formUrlencode (s : Str) : Str :=
  (s.map (fun c =>
    if c == ' ' then ['+']
    else if c.isAlphanum || c == '*' || c == '-' || c == '.' || c == '_' then [c]
    else ((utf8Bytes c).map pctByte).flatten)).flatten

/-- `form_urlencoded::Serializer::extend_pairs` + `finish` (lines 266-271). -/
def serializeForm (pairs : List (Str × Str)) : Str :=
  List.intercalate ['&'] (pairs.map (fun kv => formUrlencode kv.1 ++ '=' :: formUrlencode kv.2))

def digitChar (n : Nat) : Char := Char.ofNat (48 + n % 10)

def natDigitsAux : Nat → Nat → Str
  | 0, _ => []
  | fuel + 1, n => if n < 10 then [digitChar n] else natDigitsAux fuel (n / 10) ++ [digitChar (n % 10)]

def natDigits (n : Nat) : Str := natDigitsAux (n + 1) n

def intRepr : Int → Str
  | .ofNat n => natDigits n
  | .negSucc n => '-' :: natDigits (n + 1)

def pyQuote : Char := Char.ofNat 39

mutual
/-- Python `str()` of one value (string quoting simplified to plain single quotes). -/
def pyReprObj : PyObj → Str
  | .str s => pyQuote :: s ++ [pyQuote]
  | .pyInt n => intRepr n
  | .list xs => '[' :: pyReprList xs ++ [']']
def pyReprList : List PyObj → Str
  | [] => []
  | [x] => pyReprObj x
  | x :: y :: xs => pyReprObj x ++ ',' :: ' ' :: pyReprList (y :: xs)
end

/-- Python `str()` of the json dict, as produced by `json_data.to_string()` (line 274). -/
def pyReprDict (d : List (Str × PyObj)) : Str :=
  Char.ofNat 123 ::
    List.intercalate [',', ' ']
      (d.map (fun kv => pyQuote :: kv.1 ++ pyQuote :: ':' :: ' ' :: pyReprObj kv.2))
    ++ [Char.ofNat 125]

inductive BodyE
  | bytes (b : List Nat)
  | text (s : Str)
  | multipart (parts : List (Str × List Nat))
deriving DecidableEq

inductive AuthE
  | basic (user : Str) (password : Option Str)
  | bearer (token : Str)
deriving DecidableEq

/-- The reqwest request builder as configured by `Client::request`, at the transport
boundary: everything attached by the time `send` is called. -/
structure RequestBuilderE where
  method : Method
  url : Str
  query : Option (List (Str × Str)) := none
  headers : List (Str × Str) := []
  body : Option BodyE := none
  auth : Option AuthE := none
  timeout : Option Rat := none
deriving DecidableEq

/-- Outcome of one call: the request that reaches the transport `send`, a raised error,
or a Rust panic (an `unwrap` of an error). -/
inductive RequestOutcome
  | sent (req : RequestBuilderE)
  | failed (e : ReqError)
  | panicked
deriving DecidableEq

def RequestOutcome.sentReq : RequestOutcome → Option RequestBuilderE
  | .sent r => some r
  | _ => none

def toOutcome : Except ReqError RequestBuilderE → RequestOutcome
  | .ok b => .sent b
  | .error e => .failed e

def ctKey : Str := "content-type".toList
def ctFormUrlencoded : Str := "application/x-www-form-urlencoded".toList
def ctJson : Str := "application/json".toList

/-- Content type attached by the external `RequestBuilder::multipart`; the randomly
generated boundary is elided (no claim depends on it). -/
def ctMultipart : Str := "multipart/form-data; boundary=".toList

/-- The multipart file loop of `Client::request` (lines 337-348); `fs` models
`tokio::fs::read`, returning the file bytes or a read failure. -/
def readFilesAux (fs : Str → Option (List Nat)) (acc : List (Str × List Nat)) :
    List (Str × Str) → Except ReqError (List (Str × List Nat))
  | [] => .ok acc
  | kv :: rest =>
    match fs kv.2 with
    | none => .error (.fileRead kv.2)
    | some bytes => readFilesAux fs (acc ++ [(kv.1, bytes)]) rest

def readFiles (fs : Str → Option (List Nat)) (files : List (Str × Str)) :
    Except ReqError (List (Str × List Nat)) :=
  readFilesAux fs [] files

/-- The content branch (lines 321-323): `.body(content)` sets the body verbatim, no
content type is forced. -/
def setContent (content : Option (List Nat)) (b : RequestBuilderE) : RequestBuilderE :=
  match content with
  | some bs => { b with body := some (.bytes bs) }
  | none => b

/-- The data branch (lines 325-329): sets the urlencoded content type and the body. -/
def setData (dataStr : Option Str) (b : RequestBuilderE) : RequestBuilderE :=
  match dataStr with
  | some s => { b with headers := headerInsert b.headers ctKey ctFormUrlencoded,
                       body := some (.text s) }
  | none => b

/-- The json branch (lines 331-335): sets the json content type and the body. -/
def setJson (jsonStr : Option Str) (b : RequestBuilderE) : RequestBuilderE :=
  match jsonStr with
  | some s => { b with headers := headerInsert b.headers ctKey ctJson,
                       body := some (.text s) }
  | none => b

/-- The files branch (lines 337-350): reads every file (failing on the first unreadable
path) and sets a multipart body with its content type. -/
def setFiles (fs : Str → Option (List Nat)) (files : Option (List (Str × Str)))
    (b : RequestBuilderE) : Except ReqError RequestBuilderE :=
  match files with
  | some fl =>
    (readFiles fs fl).map
      (fun parts => { b with headers := headerInsert b.headers ctKey ctMultipart,
                             body := some (.multipart parts) })
  | none => .ok b

/-- The body section of `Client::request` (lines 318-351): only for POST/PUT/PATCH, apply
content, then form data, then json, then files, each setting the body (and, for the last
three, the content-type header) over whatever was set before. -/
def applyBody (fs : Str → Option (List Nat)) (ppp : Bool) (content : Option (List Nat))
    (dataStr jsonStr : Option Str) (files : Option (List (Str × Str)))
    (b : RequestBuilderE) : Except ReqError RequestBuilderE :=
  if ppp then setFiles fs files (setJson jsonStr (setData dataStr (setContent content b)))
  else .ok b

/-- The per-call header section of `Client::request` (lines 303-316): a present map is
validated, normalized and handed to the builder wholesale. -/
def attachHeaders (headers : Option (List (Str × Str))) (b : RequestBuilderE) :
    Except ReqError RequestBuilderE :=
  match headers with
  | none => .ok b
  | some h => (mkHeaderMap h).map (fun hm => { b with headers := hm })

/-- The auth match of `Client::request` (lines 354-367). -/
def attachAuth (auth : Option (Str × Option Str)) (bearer : Option Str)
    (b : RequestBuilderE) : Except ReqError RequestBuilderE :=
  match auth, bearer with
  | some a, none => .ok { b with auth := some (.basic a.1 a.2) }
  | none, some tok => .ok { b with auth := some (.bearer tok) }
  | some _, some _ => .error .bothAuth
  | none, none => .ok b

def attachTimeout (t : Option Rat) (b : RequestBuilderE) : RequestBuilderE :=
  match t with
  | some s => { b with timeout := some s }
  | none => b

/-- The async block of `Client::request` (lines 276-377) up to `send`: method validation,
query, headers, body, auth, timeout, with the effective auth/bearer/params already
resolved by the caller. -/
def buildRequest (fs : Str → Option (List Nat)) (method url : Str)
    (params headers : Option (List (Str × Str)))
    (content : Option (List Nat)) (dataStr jsonStr : Option Str)
    (files : Option (List (Str × Str)))
    (auth : Option (Str × Option Str)) (bearer : Option Str) (timeout : Option Rat) :
    Except ReqError RequestBuilderE :=
  match parseMethod method with
  | none => .error .unrecognizedMethod
  | some me =>
    match attachHeaders headers { method := me, url := url, query := params } with
    | .error e => .error e
    | .ok b1 =>
      match applyBody fs (isPPP method) content dataStr jsonStr files b1 with
      | .error e => .error e
      | .ok b2 =>
        match attachAuth auth bearer b2 with
        | .error e => .error e
        | .ok b3 => .ok (attachTimeout timeout b3)

/-- The Client struct fields retained from construction (lines 53-58; the transport handle
itself is the out-of-scope collaborator). -/
structure Client where
  auth : Option (Str × Option Str) := none
  auth_bearer : Option Str := none
  params : Option (List (Str × Str)) := none
deriving DecidableEq

/-- The data conversion of `Client::request` (lines 264-272).  The code unwraps the
conversion result, so an error here is a panic — see `Client.request`. -/
def dataStrOf (data : Option (List (Str × PyObj))) : Except Unit (Option Str) :=
  match data with
  | none => .ok none
  | some d => (py_dict_to_hashmap d).map (fun m => some (serializeForm (flattenPairs m)))

def dataOk (data : Option (List (Str × PyObj))) : Bool := (dataStrOf data).toOption.isSome

def headersOk (headers : Option (List (Str × Str))) : Bool :=
  match headers with
  | none => true
  | some h => (mkHeaderMap h).toOption.isSome

def filesOk (fs : Str → Option (List Nat)) (files : Option (List (Str × Str))) : Bool :=
  match files with
  | none => true
  | some fl => (readFiles fs fl).toOption.isSome

/-- `Client::request` (lines 244-424) up to the transport `send`: per-call auth, bearer
and params fall back to the client defaults (lines 260-262), the data dict is converted
before anything else — its `.unwrap()` turns a conversion error into a panic (line 265) —
and the request is then assembled.  `fs` stands for the filesystem consulted by the
multipart branch. -/
def Client.request (self : Client) (fs : Str → Option (List Nat)) (method url : Str)
    (params headers : Option (List (Str × Str)))
    (content : Option (List Nat)) (data json : Option (List (Str × PyObj)))
    (files : Option (List (Str × Str)))
    (auth : Option (Str × Option Str)) (auth_bearer : Option Str) (timeout : Option Rat) :
    RequestOutcome :=
  match dataStrOf data with
  | .error _ => .panicked
  | .ok ds =>
    toOutcome (buildRequest fs method url (params <|> self.params) headers content ds
      (json.map pyReprDict) files (auth <|> self.auth) (auth_bearer <|> self.auth_bearer)
      timeout)

/-- One `param.splitn(2, '=')` step of the charset scan (lines 390-399): the key, trimmed
and compared to "charset" up to ASCII case; yields the trimmed value. -/
def paramCharset (param : Str) : Option Str :=
  match splitFirst '=' param with
  | (_, none) => none
  | (k, some v) => if strLower (trimStr k) = "charset".toList then some (trimStr v) else none

def defaultCharset : Str := "UTF-8".toList

/-- Visible-ASCII test of one header-value byte as in the external `HeaderValue::to_str`
(bytes 32-126, or tab).  A model character outside ASCII stands for bytes ≥ 0x80, which
fail the check just as the character does here. -/
def isVisibleAsciiChar (c : Char) : Bool :=
  (decide (32 ≤ c.toNat) && decide (c.toNat < 127)) || c == '\t'

/-- `ct.to_str().ok()` (line 388): the header value as text, but only when every byte is
visible ASCII; otherwise none. -/
def headerValueToStr (s : Str) : Option Str :=
  if s.all isVisibleAsciiChar then some s else none

/-- The charset extraction of `Client::request`'s response handling (lines 384-401):
look up Content-Type, convert it to text (failing on non-visible-ASCII bytes), scan its
parameters for a charset key, and default to UTF-8 at every failure point. -/
def responseEncoding (respHeaders : List (Str × Str)) : Str :=
  match (headerGet respHeaders "Content-Type".toList).bind headerValueToStr with
  | none => defaultCharset
  | some ct => ((splitChar ';' ct).findSome? paramCharset).getD defaultCharset

inductive RedirectPolicyE
  | limited (maxRedirects : Nat)
  | noFollow
deriving DecidableEq

inductive HttpVersionPin
  | http1Only
  | http2PriorKnowledge
deriving DecidableEq

/-- The reqwest client builder as configured by `Client::new`: each field records whether
(and with what argument) the corresponding builder method was called; `none` means the
method was never called, leaving the transport collaborator's own default in force. -/
structure ClientBuilderE where
  echGrease : Option Bool := none
  permuteExt : Option Bool := none
  defaultHeaders : Option (List (Str × Str)) := none
  cookieStore : Option Bool := none
  referer : Option Bool := none
  proxyUrl : Option Str := none
  timeoutSecs : Option Rat := none
  profile : Option Str := none
  redirect : Option RedirectPolicyE := none
  acceptInvalidCerts : Option Bool := none
  httpPin : Option HttpVersionPin := none
deriving DecidableEq

/-- The default-headers stage of `Client::new` (lines 136-149). -/
def cnHeaders (headers : Option (List (Str × Str))) (b : ClientBuilderE) :
    Except ReqError ClientBuilderE :=
  match headers with
  | some h => (mkHeaderMap h).map (fun hm => { b with defaultHeaders := some hm })
  | none => .ok b

/-- The cookie-store stage (lines 151-154): the builder is called only when the resolved
value (default `true`) is true. -/
def cnCookie (cookie_store : Option Bool) (b : ClientBuilderE) : ClientBuilderE :=
  if cookie_store.getD true then { b with cookieStore := some true } else b

/-- The referer stage (lines 156-159): the builder is called only when the resolved value
(default `true`) is true. -/
def cnReferer (referer : Option Bool) (b : ClientBuilderE) : ClientBuilderE :=
  if referer.getD true then { b with referer := some true } else b

/-- The proxy stage (lines 161-166). -/
def cnProxy (proxyValid : Str → Bool) (proxy : Option Str) (b : ClientBuilderE) :
    Except ReqError ClientBuilderE :=
  match proxy with
  | some p => if proxyValid p then .ok { b with proxyUrl := some p } else .error .invalidProxy
  | none => .ok b

/-- The timeout stage (lines 168-171). -/
def cnTimeout (timeout : Option Rat) (b : ClientBuilderE) : ClientBuilderE :=
  match timeout with
  | some t => { b with timeoutSecs := some t }
  | none => b

/-- The impersonation stage (lines 173-179). -/
def cnImpersonate (profileValid : Str → Bool) (impersonate : Option Str)
    (b : ClientBuilderE) : Except ReqError ClientBuilderE :=
  match impersonate with
  | some s => if profileValid s then .ok { b with profile := some s }
              else .error .invalidImpersonate
  | none => .ok b

/-- The redirect stage (lines 181-187): always called, limited (default 20) or none. -/
def cnRedirect (follow_redirects : Option Bool) (max_redirects : Option Nat)
    (b : ClientBuilderE) : ClientBuilderE :=
  if follow_redirects.getD true
  then { b with redirect := some (.limited (max_redirects.getD 20)) }
  else { b with redirect := some .noFollow }

/-- The verify stage (lines 189-193): invalid certificates are accepted unless `verify`
is explicitly true. -/
def cnVerify (verify : Option Bool) (b : ClientBuilderE) : ClientBuilderE :=
  if !(verify.getD false) then { b with acceptInvalidCerts := some true } else b

/-- The http-version stage (lines 195-205). -/
def cnHttp (http1 http2 : Option Bool) (b : ClientBuilderE) :
    Except ReqError ClientBuilderE :=
  match http1, http2 with
  | some true, some true => .error .bothHttp
  | some true, _ => .ok { b with httpPin := some .http1Only }
  | _, some true => .ok { b with httpPin := some .http2PriorKnowledge }
  | _, _ => .ok b

/-- `Client::new` (lines 108-218): validates the options and configures the transport
builder, stage by stage in source order.  `proxyValid` and `profileValid` stand for the
external `Proxy::all` and `Impersonate::from_str` parsers; the final external `build()`
call is the out-of-scope transport construction, whose input is the returned builder. -/
def clientNew (proxyValid profileValid : Str → Bool)
    (auth : Option (Str × Option Str)) (auth_bearer : Option Str)
    (params : Option (List (Str × Str))) (headers : Option (List (Str × Str)))
    (cookie_store referer : Option Bool)
    (proxy : Option Str) (timeout : Option Rat) (impersonate : Option Str)
    (follow_redirects : Option Bool) (max_redirects : Option Nat)
    (verify http1 http2 : Option Bool) :
    Except ReqError (ClientBuilderE × Client) :=
  if auth.isSome && auth_bearer.isSome then .error .bothAuth
  else
    match cnHeaders headers { echGrease := some true, permuteExt := some true } with
    | .error e => .error e
    | .ok b1 =>
      match cnProxy proxyValid proxy (cnReferer referer (cnCookie cookie_store b1)) with
      | .error e => .error e
      | .ok b4 =>
        match cnImpersonate profileValid impersonate (cnTimeout timeout b4) with
        | .error e => .error e
        | .ok b6 =>
          match cnHttp http1 http2 (cnVerify verify (cnRedirect follow_redirects max_redirects b6)) with
          | .error e => .error e
          | .ok b9 =>
            .ok (b9, { auth := auth, auth_bearer := auth_bearer, params := params })

/-! Basic facts about the pipeline stages. -/

@[simp] theorem toOutcome_sentReq (e : Except ReqError RequestBuilderE) :
    (toOutcome e).sentReq = e.toOption := by
  cases e <;> rfl

@[simp] theorem setContent_none (b : RequestBuilderE) : setContent none b = b := rfl

@[simp] theorem setContent_some (bs : List Nat) (b : RequestBuilderE) :
    setContent (some bs) b = { b with body := some (.bytes bs) } := rfl

@[simp] theorem setData_none (b : RequestBuilderE) : setData none b = b := rfl

@[simp] theorem setData_some (s : Str) (b : RequestBuilderE) :
    setData (some s) b = { b with headers := headerInsert b.headers ctKey ctFormUrlencoded,
                                  body := some (.text s) } := rfl

@[simp] theorem setJson_none (b : RequestBuilderE) : setJson none b = b := rfl

@[simp] theorem setJson_some (s : Str) (b : RequestBuilderE) :
    setJson (some s) b = { b with headers := headerInsert b.headers ctKey ctJson,
                                  body := some (.text s) } := rfl

@[simp] theorem setFiles_none (fs : Str → Option (List Nat)) (b : RequestBuilderE) :
    setFiles fs none b = .ok b := rfl

theorem setFiles_some_inv (fs : Str → Option (List Nat)) (fl : List (Str × Str))
    (b b' : RequestBuilderE) (h : setFiles fs (some fl) b = .ok b') :
    ∃ parts, readFiles fs fl = .ok parts ∧
      b' = { b with headers := headerInsert b.headers ctKey ctMultipart,
                    body := some (.multipart parts) } := by
  simp only [setFiles] at h
  cases hr : readFiles fs fl <;> rw [hr] at h <;> simp [Except.map] at h
  exact ⟨_, rfl, h.symm⟩

@[simp] theorem applyBody_not_ppp (fs : Str → Option (List Nat)) (c : Option (List Nat))
    (ds js : Option Str) (f : Option (List (Str × Str))) (b : RequestBuilderE) :
    applyBody fs false c ds js f b = .ok b := rfl

theorem applyBody_ppp (fs : Str → Option (List Nat)) (c : Option (List Nat))
    (ds js : Option Str) (f : Option (List (Str × Str))) (b : RequestBuilderE) :
    applyBody fs true c ds js f b = setFiles fs f (setJson js (setData ds (setContent c b))) :=
  rfl

@[simp] theorem attachHeaders_none (b : RequestBuilderE) : attachHeaders none b = .ok b := rfl

theorem attachHeaders_some_inv (h : List (Str × Str)) (b b' : RequestBuilderE)
    (hh : attachHeaders (some h) b = .ok b') :
    mkHeaderMap h = .ok b'.headers ∧ b' = { b with headers := b'.headers } := by
  simp only [attachHeaders] at hh
  cases hm : mkHeaderMap h <;> rw [hm] at hh <;> simp [Except.map] at hh
  rw [← hh]
  exact ⟨rfl, rfl⟩

@[simp] theorem attachAuth_basic (a : Str × Option Str) (b : RequestBuilderE) :
    attachAuth (some a) none b = .ok { b with auth := some (.basic a.1 a.2) } := rfl

@[simp] theorem attachAuth_bearer (tok : Str) (b : RequestBuilderE) :
    attachAuth none (some tok) b = .ok { b with auth := some (.bearer tok) } := rfl

@[simp] theorem attachAuth_none (b : RequestBuilderE) : attachAuth none none b = .ok b := rfl

@[simp] theorem attachAuth_both (a : Str × Option Str) (tok : Str) (b : RequestBuilderE) :
    attachAuth (some a) (some tok) b = .error .bothAuth := rfl

@[simp] theorem attachTimeout_none (b : RequestBuilderE) : attachTimeout none b = b := rfl

@[simp] theorem attachTimeout_some (t : Rat) (b : RequestBuilderE) :
    attachTimeout (some t) b = { b with timeout := some t } := rfl

theorem attachAuth_ok_fields (a : Option (Str × Option Str)) (ab : Option Str)
    (b b' : RequestBuilderE) (h : attachAuth a ab b = .ok b') :
    b'.method = b.method ∧ b'.url = b.url ∧ b'.query = b.query ∧
    b'.headers = b.headers ∧ b'.body = b.body ∧ b'.timeout = b.timeout := by
  cases a <;> cases ab <;> simp at h <;> rw [← h] <;> exact ⟨rfl, rfl, rfl, rfl, rfl, rfl⟩

theorem attachTimeout_fields (t : Option Rat) (b : RequestBuilderE) :
    (attachTimeout t b).method = b.method ∧ (attachTimeout t b).url = b.url ∧
    (attachTimeout t b).query = b.query ∧ (attachTimeout t b).headers = b.headers ∧
    (attachTimeout t b).body = b.body ∧ (attachTimeout t b).auth = b.auth := by
  cases t <;> exact ⟨rfl, rfl, rfl, rfl, rfl, rfl⟩

theorem setContent_fields (c : Option (List Nat)) (b : RequestBuilderE) :
    (setContent c b).method = b.method ∧ (setContent c b).url = b.url ∧
    (setContent c b).query = b.query ∧ (setContent c b).headers = b.headers ∧
    (setContent c b).auth = b.auth ∧ (setContent c b).timeout = b.timeout := by
  cases c <;> exact ⟨rfl, rfl, rfl, rfl, rfl, rfl⟩

theorem setData_fields (ds : Option Str) (b : RequestBuilderE) :
    (setData ds b).method = b.method ∧ (setData ds b).url = b.url ∧
    (setData ds b).query = b.query ∧ (setData ds b).auth = b.auth ∧
    (setData ds b).timeout = b.timeout := by
  cases ds <;> exact ⟨rfl, rfl, rfl, rfl, rfl⟩

theorem setJson_fields (js : Option Str) (b : RequestBuilderE) :
    (setJson js b).method = b.method ∧ (setJson js b).url = b.url ∧
    (setJson js b).query = b.query ∧ (setJson js b).auth = b.auth ∧
    (setJson js b).timeout = b.timeout := by
  cases js <;> exact ⟨rfl, rfl, rfl, rfl, rfl⟩

theorem setFiles_ok_fields (fs : Str → Option (List Nat)) (f : Option (List (Str × Str)))
    (b b' : RequestBuilderE) (h : setFiles fs f b = .ok b') :
    b'.method = b.method ∧ b'.url = b.url ∧ b'.query = b.query ∧
    b'.auth = b.auth ∧ b'.timeout = b.timeout := by
  cases f with
  | none => simp at h; rw [← h]; exact ⟨rfl, rfl, rfl, rfl, rfl⟩
  | some fl =>
    obtain ⟨parts, -, hb⟩ := setFiles_some_inv fs fl b b' h
    rw [hb]
    exact ⟨rfl, rfl, rfl, rfl, rfl⟩

theorem applyBody_ok_fields (fs : Str → Option (List Nat)) (ppp : Bool)
    (c : Option (List Nat)) (ds js : Option Str) (f : Option (List (Str × Str)))
    (b b' : RequestBuilderE) (h : applyBody fs ppp c ds js f b = .ok b') :
    b'.method = b.method ∧ b'.url = b.url ∧ b'.query = b.query ∧
    b'.auth = b.auth ∧ b'.timeout = b.timeout := by
  cases ppp with
  | false => simp at h; rw [← h]; exact ⟨rfl, rfl, rfl, rfl, rfl⟩
  | true =>
    rw [applyBody_ppp] at h
    have h4 := setFiles_ok_fields fs f _ b' h
    have h3 := setJson_fields js (setData ds (setContent c b))
    have h2 := setData_fields ds (setContent c b)
    have h1 := setContent_fields c b
    exact ⟨by rw [h4.1, h3.1, h2.1, h1.1], by rw [h4.2.1, h3.2.1, h2.2.1, h1.2.1],
           by rw [h4.2.2.1, h3.2.2.1, h2.2.2.1, h1.2.2.1],
           by rw [h4.2.2.2.1, h3.2.2.2.1, h2.2.2.2.1, h1.2.2.2.2.1],
           by rw [h4.2.2.2.2, h3.2.2.2.2, h2.2.2.2.2, h1.2.2.2.2.2]⟩

/-- Inversion of a call that reached the transport: every stage succeeded, in order. -/
theorem request_sent_inv (self : Client) (fs : Str → Option (List Nat)) (method url : Str)
    (params headers : Option (List (Str × Str))) (content : Option (List Nat))
    (data json : Option (List (Str × PyObj))) (files : Option (List (Str × Str)))
    (auth : Option (Str × Option Str)) (auth_bearer : Option Str) (timeout : Option Rat)
    (r : RequestBuilderE)
    (hr : (Client.request self fs method url params headers content data json files auth
      auth_bearer timeout).sentReq = some r) :
    ∃ ds me b1 b2 b3,
      dataStrOf data = .ok ds ∧
      parseMethod method = some me ∧
      attachHeaders headers { method := me, url := url, query := params <|> self.params }
        = .ok b1 ∧
      applyBody fs (isPPP method) content ds (json.map pyReprDict) files b1 = .ok b2 ∧
      attachAuth (auth <|> self.auth) (auth_bearer <|> self.auth_bearer) b2 = .ok b3 ∧
      r = attachTimeout timeout b3 := by
  unfold Client.request at hr
  split at hr
  · simp [RequestOutcome.sentReq] at hr
  · rename_i ds hds
    rw [toOutcome_sentReq] at hr
    unfold buildRequest at hr
    split at hr
    · simp [Except.toOption] at hr
    · rename_i me hpm
      split at hr
      · simp [Except.toOption] at hr
      · rename_i b1 hah
        split at hr
        · simp [Except.toOption] at hr
        · rename_i b2 hab
          split at hr
          · simp [Except.toOption] at hr
          · rename_i b3 haa
            simp [Except.toOption] at hr
            exact ⟨ds, me, b1, b2, b3, hds, hpm, hah, hab, haa, hr.symm⟩

theorem headerGet_insert_self (hs : List (Str × Str)) (k v : Str) (hk : strLower k = k) :
    headerGet (headerInsert hs k v) k = some v := by
  unfold headerGet headerInsert
  rw [hk]
  simp [List.find?]

theorem readFilesAux_fails (fs : Str → Option (List Nat)) (fl : List (Str × Str))
    (hfail : ∃ e ∈ fl, fs e.2 = none) (acc : List (Str × List Nat)) :
    ∃ p, fs p = none ∧ (∃ field, (field, p) ∈ fl) ∧
      readFilesAux fs acc fl = .error (.fileRead p) := by
  induction fl generalizing acc with
  | nil => simp at hfail
  | cons kv rest ih =>
    cases hkv : fs kv.2 with
    | none =>
      refine ⟨kv.2, hkv, ⟨kv.1, by simp⟩, ?_⟩
      simp [readFilesAux, hkv]
    | some bytes =>
      obtain ⟨e, he, hne⟩ := hfail
      rcases List.mem_cons.mp he with he | he
      · rw [he] at hne
        rw [hne] at hkv
        cases hkv
      · obtain ⟨p, hp, ⟨field, hf⟩, hrf⟩ := ih ⟨e, he, hne⟩ (acc ++ [(kv.1, bytes)])
        exact ⟨p, hp, ⟨field, by simp [hf]⟩, by simp [readFilesAux, hkv, hrf]⟩

theorem readFiles_fails (fs : Str → Option (List Nat)) (fl : List (Str × Str))
    (hfail : ∃ e ∈ fl, fs e.2 = none) :
    ∃ p, fs p = none ∧ (∃ field, (field, p) ∈ fl) ∧
      readFiles fs fl = .error (.fileRead p) :=
  readFilesAux_fails fs fl hfail []

theorem isPPP_parseMethod (m : Str) (h : isPPP m = true) : (parseMethod m).isSome = true := by
  unfold isPPP at h
  simp only [Bool.or_eq_true, decide_eq_true_eq] at h
  rcases h with (h | h) | h <;> subst h <;> decide

theorem dataOk_inv (data : Option (List (Str × PyObj))) (h : dataOk data = true) :
    ∃ ds, dataStrOf data = .ok ds := by
  unfold dataOk at h
  cases hd : dataStrOf data
  · rw [hd] at h
    simp [Except.toOption] at h
  · exact ⟨_, rfl⟩

theorem headersOk_inv (headers : Option (List (Str × Str))) (h : headersOk headers = true)
    (b : RequestBuilderE) : ∃ b1, attachHeaders headers b = .ok b1 := by
  cases headers with
  | none => exact ⟨b, rfl⟩
  | some hm =>
    simp only [headersOk] at h
    cases hmk : mkHeaderMap hm with
    | error e =>
      rw [hmk] at h
      simp [Except.toOption] at h
    | ok hmv => exact ⟨{ b with headers := hmv }, by simp [attachHeaders, hmk, Except.map]⟩

theorem setFiles_ok_of (fs : Str → Option (List Nat)) (files : Option (List (Str × Str)))
    (b : RequestBuilderE) (h : filesOk fs files = true) :
    ∃ b', setFiles fs files b = .ok b' := by
  cases files with
  | none => exact ⟨b, rfl⟩
  | some fl =>
    simp only [filesOk] at h
    cases hr : readFiles fs fl with
    | error e =>
      rw [hr] at h
      simp [Except.toOption] at h
    | ok parts =>
      exact ⟨{ b with headers := headerInsert b.headers ctKey ctMultipart,
                      body := some (.multipart parts) },
             by simp [setFiles, hr, Except.map]⟩

theorem applyBody_ok_of (fs : Str → Option (List Nat)) (ppp : Bool)
    (c : Option (List Nat)) (ds js : Option Str) (files : Option (List (Str × Str)))
    (b : RequestBuilderE) (hf : ppp = true → filesOk fs files = true) :
    ∃ b', applyBody fs ppp c ds js files b = .ok b' := by
  cases ppp with
  | false => exact ⟨b, rfl⟩
  | true =>
    rw [applyBody_ppp]
    exact setFiles_ok_of fs files _ (hf rfl)

theorem buildRequest_unrecognized (fs : Str → Option (List Nat)) (method url : Str)
    (params headers : Option (List (Str × Str))) (content : Option (List Nat))
    (ds js : Option Str) (files : Option (List (Str × Str)))
    (a : Option (Str × Option Str)) (ab : Option Str) (t : Option Rat)
    (h : parseMethod method = none) :
    buildRequest fs method url params headers content ds js files a ab t
      = .error .unrecognizedMethod := by
  unfold buildRequest
  rw [h]

theorem buildRequest_both_auth (fs : Str → Option (List Nat)) (method url : Str)
    (params headers : Option (List (Str × Str))) (content : Option (List Nat))
    (ds js : Option Str) (files : Option (List (Str × Str)))
    (a : Str × Option Str) (tok : Str) (t : Option Rat)
    (hm : (parseMethod method).isSome = true)
    (hh : headersOk headers = true)
    (hf : isPPP method = true → filesOk fs files = true) :
    buildRequest fs method url params headers content ds js files (some a) (some tok) t
      = .error .bothAuth := by
  cases hpm : parseMethod method with
  | none => rw [hpm] at hm; simp at hm
  | some me =>
    obtain ⟨b1, hb1⟩ := headersOk_inv headers hh { method := me, url := url, query := params }
    obtain ⟨b2, hb2⟩ := applyBody_ok_of fs (isPPP method) content ds js files b1 hf
    simp [buildRequest, hpm, hb1, hb2]

theorem findSome?_append_first (f : Str → Option Str) (pre : List Str) (x : Str)
    (post : List Str) (v : Str) (hpre : ∀ q ∈ pre, f q = none) (hx : f x = some v) :
    (pre ++ x :: post).findSome? f = some v := by
  induction pre with
  | nil => simp [List.findSome?, hx]
  | cons a as ih =>
    have ha := hpre a (by simp)
    simp only [List.cons_append, List.findSome?, ha]
    exact ih (fun q hq => hpre q (by simp [hq]))

theorem findSome?_all_none (f : Str → Option Str) (l : List Str)
    (hl : ∀ q ∈ l, f q = none) : l.findSome? f = none := by
  induction l with
  | nil => rfl
  | cons a as ih =>
    simp only [List.findSome?, hl a (by simp)]
    exact ih (fun q hq => hl q (by simp [hq]))

theorem attachHeaders_ok_fields (hs : Option (List (Str × Str))) (b b' : RequestBuilderE)
    (h : attachHeaders hs b = .ok b') :
    b'.method = b.method ∧ b'.url = b.url ∧ b'.query = b.query ∧ b'.body = b.body ∧
    b'.auth = b.auth ∧ b'.timeout = b.timeout := by
  cases hs with
  | none =>
    simp only [attachHeaders_none] at h
    cases h
    exact ⟨rfl, rfl, rfl, rfl, rfl, rfl⟩
  | some hm =>
    obtain ⟨-, hb⟩ := attachHeaders_some_inv hm b b' h
    rw [hb]
    exact ⟨rfl, rfl, rfl, rfl, rfl, rfl⟩

theorem request_eq_build (self : Client) (fs : Str → Option (List Nat)) (method url : Str)
    (params headers : Option (List (Str × Str))) (content : Option (List Nat))
    (data json : Option (List (Str × PyObj))) (files : Option (List (Str × Str)))
    (auth : Option (Str × Option Str)) (auth_bearer : Option Str) (timeout : Option Rat)
    (ds : Option Str) (hds : dataStrOf data = .ok ds) :
    Client.request self fs method url params headers content data json files auth
        auth_bearer timeout =
      toOutcome (buildRequest fs method url (params <|> self.params) headers content ds
        (json.map pyReprDict) files (auth <|> self.auth) (auth_bearer <|> self.auth_bearer)
        timeout) := by
  unfold Client.request
  rw [hds]

theorem request_eq_panic (self : Client) (fs : Str → Option (List Nat)) (method url : Str)
    (params headers : Option (List (Str × Str))) (content : Option (List Nat))
    (data json : Option (List (Str × PyObj))) (files : Option (List (Str × Str)))
    (auth : Option (Str × Option Str)) (auth_bearer : Option Str) (timeout : Option Rat)
    (e : Unit) (hds : dataStrOf data = .error e) :
    Client.request self fs method url params headers content data json files auth
      auth_bearer timeout = .panicked := by
  unfold Client.request
  rw [hds]

theorem cnHeaders_ok_cr (headers : Option (List (Str × Str))) (b b1 : ClientBuilderE)
    (h : cnHeaders headers b = .ok b1) :
    b1.cookieStore = b.cookieStore ∧ b1.referer = b.referer := by
  cases headers with
  | none =>
    simp only [cnHeaders] at h
    cases h
    exact ⟨rfl, rfl⟩
  | some hm =>
    simp only [cnHeaders] at h
    cases hmk : mkHeaderMap hm <;> rw [hmk] at h <;> simp [Except.map] at h
    rw [← h]
    exact ⟨rfl, rfl⟩

theorem cnCookie_fields (cs : Option Bool) (b : ClientBuilderE) :
    (cnCookie cs b).cookieStore = (if cs.getD true then some true else b.cookieStore) ∧
    (cnCookie cs b).referer = b.referer := by
  unfold cnCookie
  split <;> simp_all

theorem cnReferer_fields (rf : Option Bool) (b : ClientBuilderE) :
    (cnReferer rf b).referer = (if rf.getD true then some true else b.referer) ∧
    (cnReferer rf b).cookieStore = b.cookieStore := by
  unfold cnReferer
  split <;> simp_all

theorem cnProxy_ok_cr (pv : Str → Bool) (proxy : Option Str) (b b' : ClientBuilderE)
    (h : cnProxy pv proxy b = .ok b') :
    b'.cookieStore = b.cookieStore ∧ b'.referer = b.referer := by
  cases proxy with
  | none =>
    simp only [cnProxy] at h
    cases h
    exact ⟨rfl, rfl⟩
  | some p =>
    simp only [cnProxy] at h
    split at h
    · cases h
      exact ⟨rfl, rfl⟩
    · cases h

theorem cnTimeout_cr (t : Option Rat) (b : ClientBuilderE) :
    (cnTimeout t b).cookieStore = b.cookieStore ∧ (cnTimeout t b).referer = b.referer := by
  cases t <;> exact ⟨rfl, rfl⟩

theorem cnImpersonate_ok_cr (pv : Str → Bool) (imp : Option Str) (b b' : ClientBuilderE)
    (h : cnImpersonate pv imp b = .ok b') :
    b'.cookieStore = b.cookieStore ∧ b'.referer = b.referer := by
  cases imp with
  | none =>
    simp only [cnImpersonate] at h
    cases h
    exact ⟨rfl, rfl⟩
  | some s =>
    simp only [cnImpersonate] at h
    split at h
    · cases h
      exact ⟨rfl, rfl⟩
    · cases h

theorem cnRedirect_cr (fr : Option Bool) (mr : Option Nat) (b : ClientBuilderE) :
    (cnRedirect fr mr b).cookieStore = b.cookieStore ∧
    (cnRedirect fr mr b).referer = b.referer := by
  unfold cnRedirect
  split <;> exact ⟨rfl, rfl⟩

theorem cnVerify_cr (v : Option Bool) (b : ClientBuilderE) :
    (cnVerify v b).cookieStore = b.cookieStore ∧ (cnVerify v b).referer = b.referer := by
  unfold cnVerify
  split <;> exact ⟨rfl, rfl⟩

theorem cnHttp_ok_cr (h1 h2 : Option Bool) (b b' : ClientBuilderE)
    (h : cnHttp h1 h2 b = .ok b') :
    b'.cookieStore = b.cookieStore ∧ b'.referer = b.referer := by
  unfold cnHttp at h
  split at h <;> first
    | (cases h; exact ⟨rfl, rfl⟩)
    | cases h

theorem mapM_extractStr_strs (vs : List Str) :
    (vs.map PyObj.str).mapM extractStr = .ok vs := by
  induction vs with
  | nil => rfl
  | cons v rest ih =>
    rw [List.map_cons, List.mapM_cons, ih]
    rfl

/-! Concrete values used by the witnesses below. -/

def trivialClient : Client := {}

def noFs : Str → Option (List Nat) := fun _ => none

def fsA : Str → Option (List Nat) := fun p => if p = "/a".toList then some [7] else none

def clientWithDefaults : Client := { params := some [("A".toList, "1".toList)] }

def w1req : RequestBuilderE :=
  { method := .GET, url := "http://example.com".toList,
    query := some [("B".toList, "2".toList)],
    headers := [("b".toList, "2".toList)] }

/-! The claims. -/

/-- C1: a per-call params map and a per-call headers map each fully replace the client
defaults rather than being merged key-by-key: whichever client the call is made on, the
query map handed to the transport is exactly the per-call params map, and (when no body
variant rewrites the content-type) the header map handed to the transport is exactly the
per-call headers map, normalized as a header map. -/
theorem request_per_call_maps_fully_replace
    (self : Client) (fs : Str → Option (List Nat)) (method url : Str)
    (params headers : Option (List (Str × Str))) (content : Option (List Nat))
    (data json : Option (List (Str × PyObj))) (files : Option (List (Str × Str)))
    (auth : Option (Str × Option Str)) (auth_bearer : Option Str) (timeout : Option Rat)
    (r : RequestBuilderE)
    (hr : (Client.request self fs method url params headers content data json files auth
      auth_bearer timeout).sentReq = some r) :
    (∀ p, params = some p → r.query = some p) ∧
    (∀ h, headers = some h →
      (isPPP method = false ∨ (data = none ∧ json = none ∧ files = none)) →
      mkHeaderMap h = .ok r.headers) := by
  obtain ⟨ds, me, b1, b2, b3, hds, hpm, hah, hab, haa, hrq⟩ :=
    request_sent_inv self fs method url params headers content data json files auth
      auth_bearer timeout r hr
  constructor
  · intro p hp
    subst hp
    rw [hrq, (attachTimeout_fields timeout b3).2.2.1,
        (attachAuth_ok_fields _ _ _ _ haa).2.2.1,
        (applyBody_ok_fields _ _ _ _ _ _ _ _ hab).2.2.1,
        (attachHeaders_ok_fields _ _ _ hah).2.2.1]
    rfl
  · intro h hh hvar
    have hhdr : mkHeaderMap h = .ok b1.headers := by
      subst hh
      exact (attachHeaders_some_inv _ _ _ hah).1
    have hb21 : b2.headers = b1.headers := by
      rcases hvar with hm | ⟨hdn, hjn, hfn⟩
      · rw [hm, applyBody_not_ppp] at hab
        cases hab
        rfl
      · subst hdn hjn hfn
        have hds0 : ds = none := by
          simp only [dataStrOf] at hds
          cases hds
          rfl
        subst hds0
        cases hppp : isPPP method with
        | false =>
          rw [hppp, applyBody_not_ppp] at hab
          cases hab
          rfl
        | true =>
          rw [hppp, applyBody_ppp] at hab
          simp only [Option.map_none', setJson_none, setData_none, setFiles_none] at hab
          cases hab
          exact (setContent_fields content b1).2.2.2.1
    rw [hrq, (attachTimeout_fields timeout b3).2.2.2.1,
        (attachAuth_ok_fields _ _ _ _ haa).2.2.2.1, hb21]
    exact hhdr

/-- C1 witness: client default params `A=1`, per-call override `B=2` for both headers and
params — only `B=2` reaches the transport. -/
theorem request_per_call_maps_fully_replace_witness :
    (Client.request clientWithDefaults noFs "GET".toList "http://example.com".toList
        (some [("B".toList, "2".toList)]) (some [("B".toList, "2".toList)])
        none none none none none none none).sentReq = some w1req ∧
    w1req.query = some [("B".toList, "2".toList)] ∧
    mkHeaderMap [("B".toList, "2".toList)] = .ok w1req.headers := by
  have hsent : (Client.request clientWithDefaults noFs "GET".toList
      "http://example.com".toList (some [("B".toList, "2".toList)])
      (some [("B".toList, "2".toList)]) none none none none none none none).sentReq
        = some w1req := by decide
  have h := request_per_call_maps_fully_replace clientWithDefaults noFs "GET".toList
      "http://example.com".toList (some [("B".toList, "2".toList)])
      (some [("B".toList, "2".toList)]) none none none none none none none w1req hsent
  exact ⟨hsent, h.1 _ rfl, h.2 _ rfl (Or.inl (by decide))⟩

def w2req : RequestBuilderE :=
  { method := .POST, url := "http://example.com".toList,
    headers := [(ctKey, ctMultipart)],
    body := some (.multipart [("f".toList, [7])]) }

/-- C2: on a POST/PUT/PATCH request the supplied body variants are applied in the fixed
order content, form data, json, files, each overwriting the previously set body and
content-type, so the final body (and its content-type header) is that of the last
supplied variant in that order. -/
theorem request_body_variant_priority
    (self : Client) (fs : Str → Option (List Nat)) (method url : Str)
    (params headers : Option (List (Str × Str))) (content : Option (List Nat))
    (data json : Option (List (Str × PyObj))) (files : Option (List (Str × Str)))
    (auth : Option (Str × Option Str)) (auth_bearer : Option Str) (timeout : Option Rat)
    (r : RequestBuilderE)
    (hppp : isPPP method = true)
    (hr : (Client.request self fs method url params headers content data json files auth
      auth_bearer timeout).sentReq = some r) :
    (∀ fl, files = some fl →
      ∃ parts, readFiles fs fl = .ok parts ∧ r.body = some (.multipart parts) ∧
        headerGet r.headers ctKey = some ctMultipart) ∧
    (files = none → ∀ j, json = some j →
      r.body = some (.text (pyReprDict j)) ∧ headerGet r.headers ctKey = some ctJson) ∧
    (files = none → json = none → ∀ d, data = some d →
      ∃ m, py_dict_to_hashmap d = .ok m ∧
        r.body = some (.text (serializeForm (flattenPairs m))) ∧
        headerGet r.headers ctKey = some ctFormUrlencoded) ∧
    (files = none → json = none → data = none → r.body = content.map BodyE.bytes) := by
  obtain ⟨ds, me, b1, b2, b3, hds, hpm, hah, hab, haa, hrq⟩ :=
    request_sent_inv self fs method url params headers content data json files auth
      auth_bearer timeout r hr
  rw [hppp, applyBody_ppp] at hab
  have hrb : r.body = b2.body := by
    rw [hrq, (attachTimeout_fields timeout b3).2.2.2.2.1,
        (attachAuth_ok_fields _ _ _ _ haa).2.2.2.2.1]
  have hrh : r.headers = b2.headers := by
    rw [hrq, (attachTimeout_fields timeout b3).2.2.2.1,
        (attachAuth_ok_fields _ _ _ _ haa).2.2.2.1]
  refine ⟨?_, ?_, ?_, ?_⟩
  · intro fl hf
    subst hf
    obtain ⟨parts, hparts, hb2⟩ := setFiles_some_inv _ _ _ _ hab
    refine ⟨parts, hparts, ?_, ?_⟩
    · rw [hrb, hb2]
    · rw [hrh, hb2]
      exact headerGet_insert_self _ _ _ (by decide)
  · intro hf j hj
    subst hf hj
    simp only [Option.map_some', setFiles_none, setJson_some, Except.ok.injEq] at hab
    constructor
    · rw [hrb, ← hab]
    · rw [hrh, ← hab]
      exact headerGet_insert_self _ _ _ (by decide)
  · intro hf hj d hd
    subst hf hj hd
    simp only [Option.map_none', setFiles_none, setJson_none, Except.ok.injEq] at hab
    simp only [dataStrOf] at hds
    cases hpd : py_dict_to_hashmap d with
    | error e =>
      rw [hpd] at hds
      simp [Except.map] at hds
    | ok m =>
      rw [hpd] at hds
      simp only [Except.map, Except.ok.injEq] at hds
      subst hds
      simp only [setData_some] at hab
      refine ⟨m, rfl, ?_, ?_⟩
      · rw [hrb, ← hab]
      · rw [hrh, ← hab]
        exact headerGet_insert_self _ _ _ (by decide)
  · intro hf hj hdn
    subst hf hj hdn
    have hds0 : ds = none := by
      simp only [dataStrOf] at hds
      cases hds
      rfl
    subst hds0
    simp only [Option.map_none', setFiles_none, setJson_none, setData_none,
      Except.ok.injEq] at hab
    have hb1body : b1.body = none := (attachHeaders_ok_fields _ _ _ hah).2.2.2.1
    cases content with
    | none =>
      simp only [setContent_none] at hab
      rw [hrb, ← hab, hb1body]
      rfl
    | some bs =>
      simp only [setContent_some] at hab
      rw [hrb, ← hab]
      rfl

/-- C2 witness: a POST supplying all four variants at once ends with the multipart body
and multipart content-type of the files variant, the last in the fixed order. -/
theorem request_body_variant_priority_witness :
    isPPP "POST".toList = true ∧
    (Client.request trivialClient fsA "POST".toList "http://example.com".toList none none
        (some [1]) (some [("k".toList, PyObj.str "v".toList)])
        (some [("a".toList, PyObj.pyInt 1)]) (some [("f".toList, "/a".toList)])
        none none none).sentReq = some w2req ∧
    ∃ parts, readFiles fsA [("f".toList, "/a".toList)] = .ok parts ∧
      w2req.body = some (.multipart parts) ∧
      headerGet w2req.headers ctKey = some ctMultipart := by
  have hsent : (Client.request trivialClient fsA "POST".toList "http://example.com".toList
      none none (some [1]) (some [("k".toList, PyObj.str "v".toList)])
      (some [("a".toList, PyObj.pyInt 1)]) (some [("f".toList, "/a".toList)])
      none none none).sentReq = some w2req := by decide
  have h := request_body_variant_priority trivialClient fsA "POST".toList
      "http://example.com".toList none none (some [1])
      (some [("k".toList, PyObj.str "v".toList)]) (some [("a".toList, PyObj.pyInt 1)])
      (some [("f".toList, "/a".toList)]) none none none w2req (by decide) hsent
  exact ⟨by decide, hsent, h.1 _ rfl⟩

/-- C3: whenever the effective basic auth and the effective bearer token — the per-call
value, falling back per field to the client default — are both present, no request reaches
the transport; and provided no earlier failure preempts the auth check (convertible data,
recognized method, well-formed headers, readable files when the method takes a body, as in
the spec's own assembly order, which places body encoding before auth), the call fails
precisely with the both-auth ValidationError. -/
theorem request_both_auth_conflict
    (self : Client) (fs : Str → Option (List Nat)) (method url : Str)
    (params headers : Option (List (Str × Str))) (content : Option (List Nat))
    (data json : Option (List (Str × PyObj))) (files : Option (List (Str × Str)))
    (auth : Option (Str × Option Str)) (auth_bearer : Option Str) (timeout : Option Rat)
    (ha : (auth <|> self.auth).isSome = true)
    (hb : (auth_bearer <|> self.auth_bearer).isSome = true) :
    (Client.request self fs method url params headers content data json files auth
      auth_bearer timeout).sentReq = none ∧
    (dataOk data = true → (parseMethod method).isSome = true → headersOk headers = true →
      (isPPP method = true → filesOk fs files = true) →
      Client.request self fs method url params headers content data json files auth
        auth_bearer timeout = .failed .bothAuth ∧
      ReqError.bothAuth.isValidationError = true) := by
  constructor
  · cases hsr : (Client.request self fs method url params headers content data json files
      auth auth_bearer timeout).sentReq with
    | none => rfl
    | some r =>
      obtain ⟨ds, me, b1, b2, b3, hds, hpm, hah, hab, haa, hrq⟩ :=
        request_sent_inv self fs method url params headers content data json files auth
          auth_bearer timeout r hsr
      cases hA : auth <|> self.auth with
      | none =>
        rw [hA] at ha
        simp at ha
      | some a =>
        cases hB : auth_bearer <|> self.auth_bearer with
        | none =>
          rw [hB] at hb
          simp at hb
        | some tok =>
          rw [hA, hB, attachAuth_both] at haa
          cases haa
  · intro hd hm hh hf
    obtain ⟨ds, hds⟩ := dataOk_inv data hd
    cases hA : auth <|> self.auth with
    | none =>
      rw [hA] at ha
      simp at ha
    | some a =>
      cases hB : auth_bearer <|> self.auth_bearer with
      | none =>
        rw [hB] at hb
        simp at hb
      | some tok =>
        refine ⟨?_, by decide⟩
        rw [request_eq_build self fs method url params headers content data json files
              auth auth_bearer timeout ds hds, hA, hB,
            buildRequest_both_auth fs method url (params <|> self.params) headers content
              ds (json.map pyReprDict) files a tok timeout hm hh hf]
        rfl

/-- C3 witness: a GET with a call-level basic auth and a call-level bearer token fails
with the both-auth ValidationError, and so does a call-level bearer token over a
client-level basic default. -/
theorem request_both_auth_conflict_witness :
    ((some (("u".toList, (none : Option Str))) <|> trivialClient.auth)).isSome = true ∧
    Client.request trivialClient noFs "GET".toList "http://example.com".toList none none
      none none none none (some ("u".toList, none)) (some "t".toList) none
        = .failed .bothAuth ∧
    Client.request { auth := some ("u".toList, none) } noFs "GET".toList
      "http://example.com".toList none none none none none none none
      (some "t".toList) none = .failed .bothAuth := by
  have h1 := request_both_auth_conflict trivialClient noFs "GET".toList
      "http://example.com".toList none none none none none none
      (some ("u".toList, none)) (some "t".toList) none (by decide) (by decide)
  have h2 := request_both_auth_conflict { auth := some ("u".toList, none) } noFs
      "GET".toList "http://example.com".toList none none none none none none none
      (some "t".toList) none (by decide) (by decide)
  exact ⟨by decide, (h1.2 (by decide) (by decide) (by decide) (by decide)).1,
         (h2.2 (by decide) (by decide) (by decide) (by decide)).1⟩

def getReqBare : RequestBuilderE := { method := .GET, url := "http://example.com".toList }

/-- C4: with a convertible (or absent) data argument — data conversion precedes the method
check — an unrecognized method string makes the call fail with the unrecognized-method
ValidationError and nothing reaches the transport, while any request that does reach the
transport carries exactly the method parsed from the supplied string. -/
theorem request_method_validation
    (self : Client) (fs : Str → Option (List Nat)) (method url : Str)
    (params headers : Option (List (Str × Str))) (content : Option (List Nat))
    (data json : Option (List (Str × PyObj))) (files : Option (List (Str × Str)))
    (auth : Option (Str × Option Str)) (auth_bearer : Option Str) (timeout : Option Rat)
    (hd : dataOk data = true) :
    (parseMethod method = none →
      Client.request self fs method url params headers content data json files auth
        auth_bearer timeout = .failed .unrecognizedMethod ∧
      ReqError.unrecognizedMethod.isValidationError = true) ∧
    (∀ me r, parseMethod method = some me →
      (Client.request self fs method url params headers content data json files auth
        auth_bearer timeout).sentReq = some r → r.method = me) := by
  constructor
  · intro hpm
    obtain ⟨ds, hds⟩ := dataOk_inv data hd
    rw [request_eq_build self fs method url params headers content data json files auth
          auth_bearer timeout ds hds,
        buildRequest_unrecognized _ _ _ _ _ _ _ _ _ _ _ _ hpm]
    exact ⟨rfl, by decide⟩
  · intro me r hpm hsr
    obtain ⟨ds, me', b1, b2, b3, hds, hpm', hah, hab, haa, hrq⟩ :=
      request_sent_inv self fs method url params headers content data json files auth
        auth_bearer timeout r hsr
    rw [hpm] at hpm'
    injection hpm' with hme
    subst hme
    rw [hrq, (attachTimeout_fields timeout b3).1, (attachAuth_ok_fields _ _ _ _ haa).1,
        (applyBody_ok_fields _ _ _ _ _ _ _ _ hab).1, (attachHeaders_ok_fields _ _ _ hah).1]

/-- C4 witness: "TRACE" is rejected with the unrecognized-method ValidationError and a
"GET" call reaches the transport carrying exactly method GET. -/
theorem request_method_validation_witness :
    dataOk none = true ∧
    Client.request trivialClient noFs "TRACE".toList "http://example.com".toList none none
      none none none none none none none = .failed .unrecognizedMethod ∧
    (Client.request trivialClient noFs "GET".toList "http://example.com".toList none none
      none none none none none none none).sentReq = some getReqBare ∧
    getReqBare.method = .GET := by
  have h1 := (request_method_validation trivialClient noFs "TRACE".toList
      "http://example.com".toList none none none none none none none none none
      (by decide)).1 (by decide)
  have h2 := (request_method_validation trivialClient noFs "GET".toList
      "http://example.com".toList none none none none none none none none none
      (by decide)).2 .GET getReqBare (by decide) (by decide)
  exact ⟨by decide, h1.1, by decide, h2⟩

/-- C5 (amended): for a method other than POST/PUT/PATCH, provided the data argument (if
supplied) converts cleanly, all body variants are ignored — the call's outcome is exactly
that of the same call with no body variants at all (over any filesystem), and any request
that reaches the transport carries no body.  The amendment: a data map whose conversion
fails still panics before the method is consulted, so the variants are not ignored
unconditionally (see the counterexample). -/
theorem request_nonbody_method_ignores_variants
    (self : Client) (fs fs2 : Str → Option (List Nat)) (method url : Str)
    (params headers : Option (List (Str × Str))) (content : Option (List Nat))
    (data json : Option (List (Str × PyObj))) (files : Option (List (Str × Str)))
    (auth : Option (Str × Option Str)) (auth_bearer : Option Str) (timeout : Option Rat)
    (hm : isPPP method = false)
    (hd : dataOk data = true) :
    Client.request self fs method url params headers content data json files auth
        auth_bearer timeout =
      Client.request self fs2 method url params headers none none none none auth
        auth_bearer timeout ∧
    (∀ r, (Client.request self fs method url params headers content data json files auth
      auth_bearer timeout).sentReq = some r → r.body = none) := by
  obtain ⟨ds, hds⟩ := dataOk_inv data hd
  constructor
  · rw [request_eq_build self fs method url params headers content data json files auth
          auth_bearer timeout ds hds,
        request_eq_build self fs2 method url params headers none none none none auth
          auth_bearer timeout none rfl]
    unfold buildRequest
    rw [hm]
    rfl
  · intro r hsr
    obtain ⟨ds', me, b1, b2, b3, hds', hpm, hah, hab, haa, hrq⟩ :=
      request_sent_inv self fs method url params headers content data json files auth
        auth_bearer timeout r hsr
    rw [hm, applyBody_not_ppp] at hab
    cases hab
    rw [hrq, (attachTimeout_fields timeout b3).2.2.2.2.1,
        (attachAuth_ok_fields _ _ _ _ haa).2.2.2.2.1,
        (attachHeaders_ok_fields _ _ _ hah).2.2.2.1]

/-- C5 witness: a GET supplying a content body, a (convertible) data map, a json dict and
a files map behaves exactly like the bare GET, and the request that reaches the transport
carries no body. -/
theorem request_nonbody_method_ignores_variants_witness :
    isPPP "GET".toList = false ∧
    Client.request trivialClient noFs "GET".toList "http://example.com".toList none none
        (some [1]) (some [("k".toList, PyObj.str "v".toList)])
        (some [("a".toList, PyObj.pyInt 2)]) (some [("f".toList, "/nope".toList)])
        none none none =
      Client.request trivialClient fsA "GET".toList "http://example.com".toList none none
        none none none none none none none ∧
    getReqBare.body = none := by
  have h := request_nonbody_method_ignores_variants trivialClient noFs fsA "GET".toList
      "http://example.com".toList none none (some [1])
      (some [("k".toList, PyObj.str "v".toList)]) (some [("a".toList, PyObj.pyInt 2)])
      (some [("f".toList, "/nope".toList)]) none none none (by decide) (by decide)
  exact ⟨by decide, h.1, h.2 getReqBare (by decide)⟩

/-- C5 counterexample: the claim as stated is false — a GET whose data map holds a value
that is neither a string nor a list of strings panics (the conversion error is unwrapped
before the method is even inspected) instead of ignoring the data variant and proceeding;
the same call without the data map goes through to the transport. -/
theorem request_nonbody_method_data_panic_counterexample :
    Client.request trivialClient noFs "GET".toList "http://example.com".toList none none
      none (some [("k".toList, PyObj.pyInt 1)]) none none none none none = .panicked ∧
    (Client.request trivialClient noFs "GET".toList "http://example.com".toList none none
      none none none none none none none).sentReq.isSome = true := by
  exact ⟨by decide, by decide⟩

def w6req : RequestBuilderE :=
  { method := .POST, url := "http://example.com".toList,
    headers := [(ctKey, ctFormUrlencoded)],
    body := some (.text "k=v1&k=v2".toList) }

/-- C6: the data variant is url-encoded with one pair per value in value-list order — a
key mapped to a list of values flattens to one pair per value, a bare string acts as a
singleton list — and the urlencoded content type is set; when data is the effective (last)
variant the body reaching the transport is exactly that serialization. -/
theorem request_form_data_encoding
    (self : Client) (fs : Str → Option (List Nat)) (method url : Str)
    (params headers : Option (List (Str × Str))) (content : Option (List Nat))
    (data json : Option (List (Str × PyObj)))
    (auth : Option (Str × Option Str)) (auth_bearer : Option Str) (timeout : Option Rat)
    (r : RequestBuilderE)
    (hppp : isPPP method = true) (hj : json = none)
    (hr : (Client.request self fs method url params headers content data json none auth
      auth_bearer timeout).sentReq = some r) :
    (∀ d m, data = some d → py_dict_to_hashmap d = .ok m →
      r.body = some (.text (serializeForm (flattenPairs m))) ∧
      headerGet r.headers ctKey = some ctFormUrlencoded) ∧
    (∀ (k : Str) (vs : List Str),
      py_dict_to_hashmap [(k, PyObj.list (vs.map PyObj.str))] = .ok [(k, vs)] ∧
      flattenPairs [(k, vs)] = vs.map (fun v => (k, v))) ∧
    (∀ (k s : Str), py_dict_to_hashmap [(k, PyObj.str s)] = .ok [(k, [s])]) := by
  subst hj
  refine ⟨?_, ?_, ?_⟩
  · intro d m hd hpd
    subst hd
    obtain ⟨ds, me, b1, b2, b3, hds, hpm, hah, hab, haa, hrq⟩ :=
      request_sent_inv self fs method url params headers content (some d) none none auth
        auth_bearer timeout r hr
    rw [hppp, applyBody_ppp] at hab
    simp only [Option.map_none', setFiles_none, setJson_none, Except.ok.injEq] at hab
    simp only [dataStrOf, hpd, Except.map, Except.ok.injEq] at hds
    subst hds
    simp only [setData_some] at hab
    have hrb : r.body = b2.body := by
      rw [hrq, (attachTimeout_fields timeout b3).2.2.2.2.1,
          (attachAuth_ok_fields _ _ _ _ haa).2.2.2.2.1]
    have hrh : r.headers = b2.headers := by
      rw [hrq, (attachTimeout_fields timeout b3).2.2.2.1,
          (attachAuth_ok_fields _ _ _ _ haa).2.2.2.1]
    constructor
    · rw [hrb, ← hab]
    · rw [hrh, ← hab]
      exact headerGet_insert_self _ _ _ (by decide)
  · intro k vs
    constructor
    · unfold py_dict_to_hashmap
      simp only [List.foldlM_cons, List.foldlM_nil]
      rw [show (vs.map PyObj.str).mapM extractStr = Except.ok vs from mapM_extractStr_strs vs]
      rfl
    · simp [flattenPairs]
  · intro k s
    unfold py_dict_to_hashmap
    simp only [List.foldlM_cons, List.foldlM_nil]
    rfl

/-- C6 witness: data map k ↦ [v1, v2] on a POST yields the body k=v1&k=v2 with the
urlencoded content type. -/
theorem request_form_data_encoding_witness :
    isPPP "POST".toList = true ∧
    (Client.request trivialClient noFs "POST".toList "http://example.com".toList none none
      none (some [("k".toList, PyObj.list [PyObj.str "v1".toList, PyObj.str "v2".toList])])
      none none none none none).sentReq = some w6req ∧
    w6req.body = some (.text (serializeForm [("k".toList, "v1".toList),
      ("k".toList, "v2".toList)])) ∧
    headerGet w6req.headers ctKey = some ctFormUrlencoded ∧
    serializeForm [("k".toList, "v1".toList), ("k".toList, "v2".toList)]
      = "k=v1&k=v2".toList := by
  have hsent : (Client.request trivialClient noFs "POST".toList "http://example.com".toList
      none none none
      (some [("k".toList, PyObj.list [PyObj.str "v1".toList, PyObj.str "v2".toList])])
      none none none none none).sentReq = some w6req := by decide
  have h := request_form_data_encoding trivialClient noFs "POST".toList
      "http://example.com".toList none none none
      (some [("k".toList, PyObj.list [PyObj.str "v1".toList, PyObj.str "v2".toList])])
      none none none none w6req (by decide) rfl hsent
  have hb := h.1 _ [("k".toList, ["v1".toList, "v2".toList])] rfl (by decide)
  refine ⟨by decide, hsent, ?_, hb.2, by decide⟩
  have hfl : flattenPairs [("k".toList, ["v1".toList, "v2".toList])]
      = [("k".toList, "v1".toList), ("k".toList, "v2".toList)] := by decide
  rw [← hfl]
  exact hb.1

/-- C7 (amended): when the Content-Type header is present and its value survives the
`to_str` visible-ASCII check of line 388, the charset is the (trimmed) value of the first
`;`-separated parameter whose key matches `charset` up to ASCII case; it is "UTF-8"
whenever the header is absent, its value holds a non-visible-ASCII byte, or no parameter
matches. -/
theorem responseEncoding_charset_rule (hs : List (Str × Str)) :
    ((headerGet hs "Content-Type".toList).bind headerValueToStr = none →
      responseEncoding hs = defaultCharset) ∧
    (∀ ct, headerGet hs "Content-Type".toList = some ct → headerValueToStr ct = some ct →
      ((∀ q ∈ splitChar ';' ct, paramCharset q = none) →
        responseEncoding hs = defaultCharset) ∧
      (∀ pre param post v, splitChar ';' ct = pre ++ param :: post →
        (∀ q ∈ pre, paramCharset q = none) → paramCharset param = some v →
        responseEncoding hs = v)) := by
  constructor
  · intro h
    unfold responseEncoding
    rw [h]
  · intro ct hct hv
    have hbind : (headerGet hs "Content-Type".toList).bind headerValueToStr = some ct := by
      rw [hct]
      exact hv
    constructor
    · intro hall
      unfold responseEncoding
      rw [hbind]
      show (List.findSome? paramCharset (splitChar ';' ct)).getD defaultCharset
        = defaultCharset
      rw [findSome?_all_none paramCharset _ hall]
      rfl
    · intro pre param post v hsplit hpre hparam
      unfold responseEncoding
      rw [hbind]
      show (List.findSome? paramCharset (splitChar ';' ct)).getD defaultCharset = v
      rw [hsplit, findSome?_append_first paramCharset pre param post v hpre hparam]
      rfl

/-- C7 witness: `text/html; charset=ISO-8859-1` yields ISO-8859-1; `text/html` and an
absent Content-Type header yield UTF-8. -/
theorem responseEncoding_charset_rule_witness :
    responseEncoding [("content-type".toList, "text/html; charset=ISO-8859-1".toList)]
      = "ISO-8859-1".toList ∧
    responseEncoding [("content-type".toList, "text/html".toList)] = defaultCharset ∧
    responseEncoding [] = defaultCharset := by
  refine ⟨?_, ?_, ?_⟩
  · exact ((responseEncoding_charset_rule _).2
      ("text/html; charset=ISO-8859-1".toList) (by decide) (by decide)).2
      ["text/html".toList] (" charset=ISO-8859-1".toList) [] ("ISO-8859-1".toList)
      (by decide) (by decide) (by decide)
  · exact ((responseEncoding_charset_rule _).2 ("text/html".toList) (by decide)
      (by decide)).1 (by decide)
  · exact (responseEncoding_charset_rule _).1 (by decide)

/-- C7 counterexample: the claim as stated is false — a Content-Type value holding a
non-visible-ASCII byte (here ÿ) fails line 388's `to_str`, so the program returns the
UTF-8 default even though a well-formed charset parameter whose first-match value is ÿ is
present in the header. -/
theorem responseEncoding_non_ascii_counterexample :
    headerGet [("content-type".toList, "text/html; charset=ÿ".toList)]
      "Content-Type".toList = some "text/html; charset=ÿ".toList ∧
    (splitChar ';' "text/html; charset=ÿ".toList).findSome? paramCharset
      = some "ÿ".toList ∧
    responseEncoding [("content-type".toList, "text/html; charset=ÿ".toList)]
      = defaultCharset ∧
    "ÿ".toList ≠ defaultCharset := by
  exact ⟨by decide, by decide, by decide, by decide⟩

/-- C8: a POST/PUT/PATCH call whose files map contains an entry with an unreadable path —
the data converting and the headers well-formed, so that no earlier error preempts the
loop — fails with the EncodingError carrying a failing path of that map, whose message
names the path, and nothing reaches the transport. -/
theorem request_file_read_failure
    (self : Client) (fs : Str → Option (List Nat)) (method url : Str)
    (params headers : Option (List (Str × Str))) (content : Option (List Nat))
    (data json : Option (List (Str × PyObj))) (fl : List (Str × Str))
    (auth : Option (Str × Option Str)) (auth_bearer : Option Str) (timeout : Option Rat)
    (hppp : isPPP method = true)
    (hd : dataOk data = true)
    (hh : headersOk headers = true)
    (hfail : ∃ e ∈ fl, fs e.2 = none) :
    ∃ p, fs p = none ∧ (∃ field, (field, p) ∈ fl) ∧
      Client.request self fs method url params headers content data json (some fl) auth
        auth_bearer timeout = .failed (.fileRead p) ∧
      (ReqError.fileRead p).isEncodingError = true ∧
      (ReqError.fileRead p).message = "Error reading file ".toList ++ p ++ ": ".toList := by
  obtain ⟨ds, hds⟩ := dataOk_inv data hd
  obtain ⟨p, hp, hfield, hrf⟩ := readFiles_fails fs fl hfail
  have hm := isPPP_parseMethod method hppp
  cases hpm : parseMethod method with
  | none =>
    rw [hpm] at hm
    simp at hm
  | some me =>
    obtain ⟨b1, hb1⟩ := headersOk_inv headers hh
      { method := me, url := url, query := params <|> self.params }
    refine ⟨p, hp, hfield, ?_, rfl, rfl⟩
    rw [request_eq_build self fs method url params headers content data json (some fl)
          auth auth_bearer timeout ds hds]
    simp only [buildRequest, hpm, hb1, hppp, applyBody_ppp, setFiles, hrf, Except.map]
    rfl

/-- C8 witness: a POST whose single files entry points to an unreadable path fails with
the EncodingError naming that path. -/
theorem request_file_read_failure_witness :
    isPPP "POST".toList = true ∧
    ∃ p, noFs p = none ∧ (∃ field, (field, p) ∈ [("f".toList, "/nope".toList)]) ∧
      Client.request trivialClient noFs "POST".toList "http://example.com".toList none
        none none none none (some [("f".toList, "/nope".toList)]) none none none
        = .failed (.fileRead p) ∧
      (ReqError.fileRead p).isEncodingError = true ∧
      (ReqError.fileRead p).message
        = "Error reading file ".toList ++ p ++ ": ".toList := by
  refine ⟨by decide, ?_⟩
  exact request_file_read_failure trivialClient noFs "POST".toList
    "http://example.com".toList none none none none none [("f".toList, "/nope".toList)]
    none none none (by decide) (by decide) (by decide)
    ⟨("f".toList, "/nope".toList), by decide, rfl⟩

/-- C9: a data map holding a value that is neither a string nor a list of strings makes
the dict conversion fail, and `Client::request` unwraps that failure — the call panics
instead of surfacing a ValidationError or EncodingError to the caller. -/
theorem request_data_conversion_panics :
    py_dict_to_hashmap [("k".toList, PyObj.pyInt 1)] = .error () ∧
    Client.request trivialClient noFs "POST".toList "http://example.com".toList none none
      none (some [("k".toList, PyObj.pyInt 1)]) none none none none none = .panicked := by
  exact ⟨by decide, by decide⟩

def w10b : ClientBuilderE :=
  { echGrease := some true, permuteExt := some true,
    redirect := some (.limited 20), acceptInvalidCerts := some true }

/-- C10: `Client::new` calls the transport builder's cookie-store and referer setters only
when the resolved option (default true) is true, and always with argument true; when the
option is false no call is made at all, leaving the transport's own default in force. -/
theorem clientNew_cookie_referer_forwarding
    (proxyValid profileValid : Str → Bool) (auth : Option (Str × Option Str))
    (auth_bearer : Option Str) (params headers : Option (List (Str × Str)))
    (cookie_store referer : Option Bool) (proxy : Option Str) (timeout : Option Rat)
    (impersonate : Option Str) (follow_redirects : Option Bool)
    (max_redirects : Option Nat) (verify http1 http2 : Option Bool)
    (b : ClientBuilderE) (c : Client)
    (h : clientNew proxyValid profileValid auth auth_bearer params headers cookie_store
      referer proxy timeout impersonate follow_redirects max_redirects verify http1 http2
        = .ok (b, c)) :
    b.cookieStore = (if cookie_store.getD true then some true else none) ∧
    b.referer = (if referer.getD true then some true else none) := by
  unfold clientNew at h
  split at h
  · cases h
  · split at h
    · cases h
    · rename_i b1 hh
      split at h
      · cases h
      · rename_i b4 hp
        split at h
        · cases h
        · rename_i b6 hi
          split at h
          · cases h
          · rename_i b9 hht
            simp only [Except.ok.injEq, Prod.mk.injEq] at h
            obtain ⟨hb, -⟩ := h
            have h1 := cnHeaders_ok_cr headers _ b1 hh
            have h4 := cnProxy_ok_cr proxyValid proxy _ b4 hp
            have h6 := cnImpersonate_ok_cr profileValid impersonate _ b6 hi
            have h9 := cnHttp_ok_cr http1 http2 _ b9 hht
            have hck := cnCookie_fields cookie_store b1
            have hrf := cnReferer_fields referer (cnCookie cookie_store b1)
            have htm := cnTimeout_cr timeout b4
            have hrd := cnRedirect_cr follow_redirects max_redirects b6
            have hvf := cnVerify_cr verify (cnRedirect follow_redirects max_redirects b6)
            constructor
            · rw [← hb, h9.1, hvf.1, hrd.1, h6.1, htm.1, h4.1, hrf.2, hck.1, h1.1]
            · rw [← hb, h9.2, hvf.2, hrd.2, h6.2, htm.2, h4.2, hrf.1, hck.2, h1.2]

/-- C10 witness: cookie_store=false and referer=false produce a builder on which neither
setter was ever called. -/
theorem clientNew_cookie_referer_forwarding_witness :
    clientNew (fun _ => true) (fun _ => true) none none none none (some false)
      (some false) none none none none none none none none = .ok (w10b, trivialClient) ∧
    w10b.cookieStore = none ∧ w10b.referer = none := by
  have hok : clientNew (fun _ => true) (fun _ => true) none none none none (some false)
      (some false) none none none none none none none none
        = .ok (w10b, trivialClient) := by decide
  have h := clientNew_cookie_referer_forwarding (fun _ => true) (fun _ => true) none none
      none none (some false) (some false) none none none none none none none none w10b
      trivialClient hok
  exact ⟨hok, by simpa using h.1, by simpa using h.2⟩

end Primp
